import Mathlib

/-!
Verification of the nifty-trading-bot AI core (`src/ai-models/`).

The Python source is shallowly embedded: numeric values are rationals
(`ℚ`), except where an exact real (`ℝ`) is needed for square roots;
numpy's non-finite float outcomes (inf, -inf, nan) are made explicit with
`FloatVal`; fallible code returns `Except`; the ambient wall clock
(`datetime.now()`) is passed as an explicit `hour` argument; numpy's
random draws (`np.random.random`, `np.random.uniform`) are passed as
explicit arguments ranging over the documented intervals.
-/

namespace NiftyBot

/-- The value of a numpy float expression: either a finite (exactly
represented) value, one of the two infinities, or NaN. -/
inductive FloatVal where
  | finite (q : ℚ)
  | inf
  | negInf
  | nan
deriving DecidableEq, Repr

/-- numpy float division restricted to finite operands: division by zero
does not raise; it yields ±inf (or NaN for 0/0). -/
def fdiv (a b : ℚ) : FloatVal :=
  if b = 0 then
    if a = 0 then .nan
    else if 0 < a then .inf
    else .negInf
  else .finite (a / b)

/-- Source `price_prediction_model.py:91` (inside `engineer_features`):
`bb_position = (price - bollingerBands.lower) / (bollingerBands.upper - bollingerBands.lower)`.
There is no guard on the denominator; pandas/numpy division semantics apply. -/
def bb_position (price upper lower : ℚ) : FloatVal :=
  fdiv (price - lower) (upper - lower)

/-- C5 counterexample: with `upper = lower = 5` and `price = 7` the emitted
Bollinger-position value is `+inf`, not the numeric `0` the claim requires
(and it is a non-finite value, which the claim says never occurs). -/
theorem bb_position_zero_width_not_zero :
    bb_position 7 5 5 = .inf ∧ bb_position 7 5 5 ≠ .finite 0 := by
  have h : bb_position 7 5 5 = .inf := by norm_num [bb_position, fdiv]
  exact ⟨h, by simp [h]⟩

/-- C5 (amended): the Bollinger-position feature equals
`(price - lower) / (upper - lower)` whenever `upper ≠ lower`; when
`upper = lower` the computation still does not raise, but it emits a
non-finite value (`+inf`, `-inf`, or `NaN` depending on the sign of
`price - lower`), never the finite `0` the original claim states. -/
theorem bb_position_division_semantics (price upper lower : ℚ) :
    (upper ≠ lower →
      bb_position price upper lower = .finite ((price - lower) / (upper - lower))) ∧
    (upper = lower →
      (bb_position price upper lower = .inf ∨
       bb_position price upper lower = .negInf ∨
       bb_position price upper lower = .nan) ∧
      ∀ q : ℚ, bb_position price upper lower ≠ .finite q) := by
  constructor
  · intro hne
    have hden : upper - lower ≠ 0 := sub_ne_zero.mpr hne
    simp [bb_position, fdiv, hden]
  · intro heq
    have hden : upper - lower = 0 := sub_eq_zero.mpr heq
    constructor
    · simp only [bb_position, fdiv, hden, if_true]
      rcases lt_trichotomy (price - lower) 0 with h | h | h
      · simp [h, not_lt.mpr h.le, ne_of_lt h]
      · simp [h]
      · simp [ne_of_gt h, h]
    · intro q
      simp only [bb_position, fdiv, hden, if_true]
      rcases lt_trichotomy (price - lower) 0 with h | h | h
      · simp [h, not_lt.mpr h.le, ne_of_lt h]
      · simp [h]
      · simp [ne_of_gt h, h]

/-- C5 witness: the amended theorem evaluated at concrete inputs
(`price = 1, upper = 4, lower = 2` for the regular case, and
`price = 7, upper = lower = 5` for the zero-width case). -/
theorem bb_position_division_semantics_witness :
    bb_position 1 4 2 = .finite ((1 - 2) / (4 - 2)) ∧
    (bb_position 7 5 5 = .inf ∨ bb_position 7 5 5 = .negInf ∨
     bb_position 7 5 5 = .nan) :=
  ⟨(bb_position_division_semantics 1 4 2).1 (by norm_num),
   ((bb_position_division_semantics 7 5 5).2 rfl).1⟩

/-! ## Signal fusion / recommendation engine (`ai_prediction_service.py`) -/

/-- Trading action of a recommendation. -/
inductive Action where
  | BUY
  | SELL
  | HOLD
deriving DecidableEq, Repr

/-- Risk level of a recommendation. -/
inductive RiskLevel where
  | LOW
  | MEDIUM
  | HIGH
deriving DecidableEq, Repr

/-- One entry of the recommendation's reasoning audit trail. Each source
branch appends one formatted string; the string is a fixed template
determined by the branch plus the interpolated number, so a constructor
with its payload represents it exactly. -/
inductive Reason where
  | predictsUpward (confidence : ℚ)
  | predictsDownward (confidence : ℚ)
  | lowConfidenceDirection (direction : String)
  | highSuccessProbability (p : ℚ)
  | lowSuccessProbability (p : ℚ)
  | positiveSentiment (v : ℚ)
  | negativeSentiment (v : ℚ)
  | marketCloseProximity
deriving DecidableEq, Repr

/-- The recommendation dict built by `generate_trading_recommendation`
(`ai_prediction_service.py:222-228`). -/
structure Recommendation where
  action : Action
  confidence : ℚ
  reasoning : List Reason
  risk_level : RiskLevel
  position_size : ℚ
deriving DecidableEq, Repr

/-- The `predictions` dict produced by `TradingAIPredictionModel.predict`
(`price_prediction_model.py:310-328`): any key may be absent when the
corresponding sub-model is untrained. -/
structure Prediction where
  direction : Option String
  direction_confidence : Option ℚ
  success_probability : Option ℚ
  expected_profit_percent : Option ℚ
deriving DecidableEq, Repr

/-- The sentiment dict consumed by the recommendation engine; only
`compound_score` (and, for overall confidence, `confidence`) is read. -/
structure SentimentScore where
  compound_score : ℚ
  confidence : ℚ
deriving DecidableEq, Repr

/-- Source `ai_prediction_service.py:222-228`: the seeded recommendation. -/
def seedRecommendation : Recommendation :=
  ⟨.HOLD, 1/2, [], .MEDIUM, 1⟩

/-- Source `ai_prediction_service.py:231-242`: direction-based action choice.
`direction_confidence` defaults to 0.5 via `predictions.get`. -/
def applyDirection (p : Prediction) (r : Recommendation) : Recommendation :=
  match p.direction with
  | none => r
  | some d =>
    let dc := p.direction_confidence.getD (1/2)
    if d = "UP" ∧ dc > 7/10 then
      { r with action := .BUY, reasoning := r.reasoning ++ [.predictsUpward dc] }
    else if d = "DOWN" ∧ dc > 7/10 then
      { r with action := .SELL, reasoning := r.reasoning ++ [.predictsDownward dc] }
    else
      { r with reasoning := r.reasoning ++ [.lowConfidenceDirection d] }

/-- Source `ai_prediction_service.py:245-254`: success-probability adjustment. -/
def applySuccessProbability (p : Prediction) (r : Recommendation) : Recommendation :=
  match p.success_probability with
  | none => r
  | some sp =>
    if sp > 4/5 then
      { r with confidence := min 1 (r.confidence + 3/10),
               reasoning := r.reasoning ++ [.highSuccessProbability sp] }
    else if sp < 2/5 then
      { r with action := .HOLD,
               confidence := max (1/10) (r.confidence - 3/10),
               reasoning := r.reasoning ++ [.lowSuccessProbability sp] }
    else r

/-- Source `ai_prediction_service.py:257-267`: sentiment adjustment (skipped when
the sentiment value is absent). -/
def applySentiment (s : Option SentimentScore) (r : Recommendation) : Recommendation :=
  match s with
  | none => r
  | some sc =>
    let sv := sc.compound_score
    if sv > 3/10 then
      { r with confidence := if r.action = .BUY then min 1 (r.confidence + 1/10)
                             else r.confidence,
               reasoning := r.reasoning ++ [.positiveSentiment sv] }
    else if sv < -(3/10) then
      { r with confidence := if r.action = .SELL then min 1 (r.confidence + 1/10)
                             else r.confidence,
               reasoning := r.reasoning ++ [.negativeSentiment sv] }
    else r

/-- Source `ai_prediction_service.py:270-276`: volatility-based sizing.
`volatility` is `market_data.get('volatility', 0.15)`: the optional value
carried by the snapshot dict, defaulting to 0.15 when the key is absent. -/
def applyVolatility (volatility : Option ℚ) (r : Recommendation) : Recommendation :=
  let vol := volatility.getD (3/20)
  if vol > 1/4 then
    { r with position_size := 7/10, risk_level := .HIGH }
  else if vol < 1/10 then
    { r with position_size := 13/10, risk_level := .LOW }
  else r

/-- Source `ai_prediction_service.py:279-282`: late-session adjustment. `hour` is
`datetime.now().hour` — the ambient evaluation time, made explicit here. -/
def applyTimeAdjustment (hour : ℕ) (r : Recommendation) : Recommendation :=
  if hour ≥ 15 then
    { r with position_size := r.position_size * (4/5),
             reasoning := r.reasoning ++ [.marketCloseProximity] }
  else r

/-- Source `ai_prediction_service.py:219-284`: the full recommendation engine as
the sequential composition of its five mutation steps. -/
def generate_trading_recommendation (p : Prediction) (s : Option SentimentScore)
    (volatility : Option ℚ) (hour : ℕ) : Recommendation :=
  applyTimeAdjustment hour (applyVolatility volatility
    (applySentiment s (applySuccessProbability p (applyDirection p seedRecommendation))))

theorem applyDirection_risk_size (p : Prediction) (r : Recommendation) :
    (applyDirection p r).risk_level = r.risk_level ∧
    (applyDirection p r).position_size = r.position_size := by
  unfold applyDirection
  cases p.direction with
  | none => exact ⟨rfl, rfl⟩
  | some d =>
    dsimp only
    split_ifs <;> exact ⟨rfl, rfl⟩

theorem applySuccessProbability_risk_size (p : Prediction) (r : Recommendation) :
    (applySuccessProbability p r).risk_level = r.risk_level ∧
    (applySuccessProbability p r).position_size = r.position_size := by
  unfold applySuccessProbability
  cases p.success_probability with
  | none => exact ⟨rfl, rfl⟩
  | some sp =>
    dsimp only
    split_ifs <;> exact ⟨rfl, rfl⟩

theorem applySentiment_risk_size (s : Option SentimentScore) (r : Recommendation) :
    (applySentiment s r).risk_level = r.risk_level ∧
    (applySentiment s r).position_size = r.position_size := by
  unfold applySentiment
  cases s with
  | none => exact ⟨rfl, rfl⟩
  | some sc =>
    dsimp only
    split_ifs <;> exact ⟨rfl, rfl⟩

/-- The recommendation reaching the volatility step always carries the
seeded risk level MEDIUM and the seeded position size 1. -/
theorem preVolatility_risk_size (p : Prediction) (s : Option SentimentScore) :
    (applySentiment s (applySuccessProbability p (applyDirection p seedRecommendation))).risk_level
      = .MEDIUM ∧
    (applySentiment s (applySuccessProbability p (applyDirection p seedRecommendation))).position_size
      = 1 := by
  have h1 := applyDirection_risk_size p seedRecommendation
  have h2 := applySuccessProbability_risk_size p (applyDirection p seedRecommendation)
  have h3 := applySentiment_risk_size s
    (applySuccessProbability p (applyDirection p seedRecommendation))
  exact ⟨by rw [h3.1, h2.1, h1.1]; rfl, by rw [h3.2, h2.2, h1.2]; rfl⟩

/-- C2: when the snapshot carries a volatility value `v`, the returned
recommendation has risk HIGH with base multiplier 0.7 for `v > 0.25`,
risk LOW with base multiplier 1.3 for `v < 0.10`, and keeps the seeded
MEDIUM risk with base multiplier 1.0 otherwise; in every branch the base
multiplier is further multiplied by 0.8 exactly when the evaluation hour
is at or after 15. -/
theorem volatility_sets_risk_and_position_size
    (p : Prediction) (s : Option SentimentScore) (v : ℚ) (hour : ℕ) :
    (1/4 < v →
      (generate_trading_recommendation p s (some v) hour).risk_level = .HIGH ∧
      (generate_trading_recommendation p s (some v) hour).position_size
        = (7/10) * (if 15 ≤ hour then 4/5 else 1)) ∧
    (v < 1/10 →
      (generate_trading_recommendation p s (some v) hour).risk_level = .LOW ∧
      (generate_trading_recommendation p s (some v) hour).position_size
        = (13/10) * (if 15 ≤ hour then 4/5 else 1)) ∧
    (1/10 ≤ v → v ≤ 1/4 →
      (generate_trading_recommendation p s (some v) hour).risk_level = .MEDIUM ∧
      (generate_trading_recommendation p s (some v) hour).position_size
        = 1 * (if 15 ≤ hour then 4/5 else 1)) := by
  obtain ⟨hrisk, hsize⟩ := preVolatility_risk_size p s
  set r := applySentiment s (applySuccessProbability p (applyDirection p seedRecommendation))
    with hr
  have main : ∀ rl ps, (applyVolatility (some v) r).risk_level = rl →
      (applyVolatility (some v) r).position_size = ps →
      (generate_trading_recommendation p s (some v) hour).risk_level = rl ∧
      (generate_trading_recommendation p s (some v) hour).position_size
        = ps * (if 15 ≤ hour then 4/5 else 1) := by
    intro rl ps h1 h2
    unfold generate_trading_recommendation
    rw [← hr]
    unfold applyTimeAdjustment
    by_cases hh : 15 ≤ hour
    · simp only [ge_iff_le, hh, if_true, if_pos hh]
      exact ⟨h1, by rw [h2]⟩
    · simp only [ge_iff_le, hh, if_false, if_neg hh]
      exact ⟨h1, by rw [h2, mul_one]⟩
  refine ⟨fun hv => ?_, fun hv => ?_, fun hv1 hv2 => ?_⟩
  · have h1 : applyVolatility (some v) r
        = { r with position_size := 7/10, risk_level := .HIGH } := by
      unfold applyVolatility
      simp only [Option.getD_some]
      split_ifs <;> first | rfl | (exfalso; linarith)
    exact main .HIGH (7/10) (by rw [h1]) (by rw [h1])
  · have h1 : applyVolatility (some v) r
        = { r with position_size := 13/10, risk_level := .LOW } := by
      unfold applyVolatility
      simp only [Option.getD_some]
      split_ifs <;> first | rfl | (exfalso; linarith)
    exact main .LOW (13/10) (by rw [h1]) (by rw [h1])
  · have h1 : applyVolatility (some v) r = r := by
      unfold applyVolatility
      simp only [Option.getD_some]
      split_ifs <;> first | rfl | (exfalso; linarith)
    refine main .MEDIUM 1 ?_ ?_
    · rw [h1]; exact hrisk
    · rw [h1]; exact hsize

/-- The all-absent prediction (no sub-model produced an output). -/
def emptyPrediction : Prediction :=
  ⟨none, none, none, none⟩

/-- C2 witness: volatility 0.30 evaluated at hour 16 yields risk HIGH and
position-size multiplier 0.7 × 0.8. -/
theorem volatility_sets_risk_and_position_size_witness :
    (1/4 : ℚ) < 3/10 ∧
    (generate_trading_recommendation emptyPrediction none (some (3/10)) 16).risk_level
      = .HIGH ∧
    (generate_trading_recommendation emptyPrediction none (some (3/10)) 16).position_size
      = (7/10) * (if 15 ≤ 16 then 4/5 else 1) :=
  ⟨by norm_num,
   (volatility_sets_risk_and_position_size emptyPrediction none (3/10) 16).1 (by norm_num)⟩

/-- C6 counterexample: the recommendation engine is not a function of
(Prediction, SentimentScore, MarketSnapshot) alone — two calls with
identical inputs, one evaluated at hour 14 and one at hour 15, return
different recommendations (position size 1 vs 0.8, and an extra reasoning
entry). -/
theorem recommendation_depends_on_evaluation_hour :
    generate_trading_recommendation emptyPrediction none none 14 ≠
    generate_trading_recommendation emptyPrediction none none 15 := by
  intro h
  have := congrArg Recommendation.position_size h
  norm_num [generate_trading_recommendation, applyTimeAdjustment, applyVolatility,
    applySentiment, applySuccessProbability, applyDirection, emptyPrediction,
    seedRecommendation] at this

/-- C6 (amended): the engine is deterministic given its three inputs plus
the ambient evaluation time; the evaluation time enters only through the
late-session test `hour ≥ 15`, so two invocations with identical inputs
and the same late-session status return identical recommendations. -/
theorem recommendation_deterministic_given_hour_flag
    (p : Prediction) (s : Option SentimentScore) (vol : Option ℚ) (h1 h2 : ℕ)
    (hh : 15 ≤ h1 ↔ 15 ≤ h2) :
    generate_trading_recommendation p s vol h1 =
    generate_trading_recommendation p s vol h2 := by
  unfold generate_trading_recommendation applyTimeAdjustment
  by_cases hc : 15 ≤ h1
  · rw [if_pos hc, if_pos (hh.mp hc)]
  · rw [if_neg hc, if_neg (fun h => hc (hh.mpr h))]

/-- C6 witness: the amended determinism applied at hours 16 and 15 (both
late-session) on concrete inputs. -/
theorem recommendation_deterministic_given_hour_flag_witness :
    ((15 ≤ 16 ↔ 15 ≤ 15) : Prop) ∧
    generate_trading_recommendation emptyPrediction none (some (1/5)) 16 =
    generate_trading_recommendation emptyPrediction none (some (1/5)) 15 :=
  ⟨by decide,
   recommendation_deterministic_given_hour_flag emptyPrediction none (some (1/5)) 16 15
     (by decide)⟩

/-! ## Backtest simulator and risk analytics (`backtesting_system.py`) -/

/-- Terminal outcome tag of a simulated trade. -/
inductive TradeResult where
  | TARGET_HIT
  | STOP_LOSS_HIT
  | MANUAL_EXIT
deriving DecidableEq, Repr

/-- The dict returned by `simulate_trade_outcome` (`backtesting_system.py:311-317`). -/
structure OutcomeSim where
  exit_price : ℚ
  result : TradeResult
  profit_loss : ℚ
  profit_loss_percent : ℚ
  duration_minutes : ℚ
deriving DecidableEq, Repr

/-- Source `backtesting_system.py:276-317`. The random draws are explicit
arguments: `rand` is `np.random.random()` (uniform on [0,1)); `slipT`,
`slipS` and `exitF` are the branch-specific `np.random.uniform` factors
(over [0.95,1.0], [1.0,1.05] and [0.98,1.02] respectively); `durT`,
`durS`, `durM` the branch-specific `np.random.randint` durations. -/
def simulate_trade_outcome (entry_price target_price stop_loss_price confidence : ℚ)
    (rand slipT slipS exitF durT durS durM : ℚ) : OutcomeSim :=
  if rand < confidence * (7/10) then
    ⟨target_price * slipT, .TARGET_HIT, target_price * slipT - entry_price,
      (target_price * slipT - entry_price) / entry_price * 100, durT⟩
  else if rand < confidence * (7/10) + 3/5 then
    ⟨stop_loss_price * slipS, .STOP_LOSS_HIT, stop_loss_price * slipS - entry_price,
      (stop_loss_price * slipS - entry_price) / entry_price * 100, durS⟩
  else
    ⟨entry_price * exitF, .MANUAL_EXIT, entry_price * exitF - entry_price,
      (entry_price * exitF - entry_price) / entry_price * 100, durM⟩

/-- Direction of a simulated trade. -/
inductive TradeDirection where
  | UP
  | DOWN
deriving DecidableEq, Repr

/-- The trade dict built by `simulate_trade` (`backtesting_system.py:255-268`),
omitting the snapshot timestamp (opaque to every property verified here). -/
structure Trade where
  strategy : String
  direction : TradeDirection
  entry_price : ℚ
  target_price : ℚ
  stop_loss_price : ℚ
  exit_price : ℚ
  outcome : TradeResult
  profit_loss : ℚ
  profit_loss_percent : ℚ
  confidence : ℚ
  duration_minutes : ℚ
deriving DecidableEq, Repr

/-- Source `backtesting_system.py:225-274`, after direction and confidence have
been extracted from the signal (or defaulted): a 30% target / 20% stop
for longs, mirrored for shorts, then the stochastic outcome. -/
def simulate_trade (strategy : String) (direction : TradeDirection)
    (entry_price confidence : ℚ)
    (rand slipT slipS exitF durT durS durM : ℚ) : Trade :=
  let target_price :=
    if direction = .UP then entry_price * (13/10) else entry_price * (7/10)
  let stop_loss_price :=
    if direction = .UP then entry_price * (4/5) else entry_price * (6/5)
  let o := simulate_trade_outcome entry_price target_price stop_loss_price confidence
    rand slipT slipS exitF durT durS durM
  ⟨strategy, direction, entry_price, target_price, stop_loss_price,
    o.exit_price, o.result, o.profit_loss, o.profit_loss_percent, confidence,
    o.duration_minutes⟩

/-- Arithmetic mean (`np.mean`, `pandas.Series.mean`); on the empty list
this would be NaN in numpy, but every use below is guarded by a
non-emptiness check in the source. -/
def mean (l : List ℚ) : ℚ :=
  l.sum / (l.length : ℚ)

/-- The square of `np.std(l)` (population standard deviation, ddof = 0).
`np.std l = 0` iff `popVar l = 0`, which is how the source's zero-variance
guard is expressed below. -/
def popVar (l : List ℚ) : ℚ :=
  mean (l.map (fun x => (x - mean l) ^ 2))

/-- Source `backtesting_system.py:392-398`: `calculate_sharpe_ratio`. `np.std` is
`Real.sqrt` of `popVar`; the annualization factor is `√252`. -/
noncomputable def calculate_sharpe_ratio (returns : List ℚ) (risk_free_rate : ℚ) : ℝ :=
  if returns.length = 0 ∨ popVar returns = 0 then 0
  else
    ((mean (returns.map (fun x => x - risk_free_rate / 252)) : ℚ) : ℝ)
      / Real.sqrt ((popVar (returns.map (fun x => x - risk_free_rate / 252)) : ℚ) : ℝ)
      * Real.sqrt 252

/-- Helper for `np.cumsum`: running partial sums starting from `acc`. -/
def cumsumFrom (acc : ℚ) : List ℚ → List ℚ
  | [] => []
  | x :: xs => (acc + x) :: cumsumFrom (acc + x) xs

/-- Embeds `np.cumsum`. -/
def cumsum (l : List ℚ) : List ℚ :=
  cumsumFrom 0 l

/-- Helper for `np.maximum.accumulate`: running maxima with seed `m`. -/
def accumMaxFrom (m : ℚ) : List ℚ → List ℚ
  | [] => []
  | x :: xs => max m x :: accumMaxFrom (max m x) xs

/-- Embeds `np.maximum.accumulate`. -/
def runningMax : List ℚ → List ℚ
  | [] => []
  | x :: xs => x :: accumMaxFrom x xs

/-- The intermediate `drawdown` array of `calculate_max_drawdown`
(`backtesting_system.py:387-389`): cumulative returns minus their running
maximum, position by position. -/
def drawdownList (returns : List ℚ) : List ℚ :=
  (cumsum returns).zipWith (· - ·) (runningMax (cumsum returns))

/-- Source `backtesting_system.py:385-390`: `np.min` of the drawdown array.
`np.min` raises on an empty array; `⊤` encodes that case (the source only
calls this on non-empty trade lists). -/
def calculate_max_drawdown (returns : List ℚ) : WithTop ℚ :=
  (drawdownList returns).minimum

/-- Embeds `np.max` over a non-empty array (the 0 default is unreachable in the
guarded call sites below). -/
def listMax : List ℚ → ℚ
  | [] => 0
  | x :: xs => xs.foldl max x

/-- Embeds `np.min` over a non-empty array (same convention as `listMax`). -/
def listMin : List ℚ → ℚ
  | [] => 0
  | x :: xs => xs.foldl min x

/-- The `BacktestResult` dataclass (`backtesting_system.py:14-30`). -/
structure BacktestResult where
  strategy_name : String
  total_trades : ℕ
  winning_trades : ℕ
  losing_trades : ℕ
  win_rate : ℚ
  total_profit : ℚ
  total_loss : ℚ
  net_profit : ℚ
  max_drawdown : ℚ
  sharpe_ratio : ℝ
  avg_trade_duration : ℚ
  best_trade : ℚ
  worst_trade : ℚ
  profit_factor : FloatVal

/-- Source `backtesting_system.py:319-383`: `calculate_backtest_results`. The
empty-list branch returns the literal all-zero record; otherwise wins are
`profit_loss_percent > 0`, losses `≤ 0`, and `profit_factor` is
`total_profit / total_loss` when `total_loss > 0`, else `float('inf')`.
The `max_drawdown` default of `.untop' 0` is unreachable: `np.min` always
yields a value on the non-empty returns array. -/
noncomputable def calculate_backtest_results (trades : List Trade)
    (strategy_name : String) : BacktestResult :=
  match trades with
  | [] => ⟨strategy_name, 0, 0, 0, 0, 0, 0, 0, 0, 0, 0, 0, 0, .finite 0⟩
  | t :: ts =>
    let all := t :: ts
    let returns := all.map (fun tr => tr.profit_loss_percent)
    let total_trades := all.length
    let winning_trades := (returns.filter (fun x => 0 < x)).length
    let losing_trades := (returns.filter (fun x => x ≤ 0)).length
    let win_rate :=
      if 0 < total_trades then ((winning_trades : ℚ) / (total_trades : ℚ)) * 100 else 0
    let profits := returns.filter (fun x => 0 < x)
    let losses := returns.filter (fun x => x ≤ 0)
    let total_profit := if 0 < profits.length then profits.sum else 0
    let total_loss := if 0 < losses.length then |losses.sum| else 0
    ⟨strategy_name, total_trades, winning_trades, losing_trades, win_rate,
      total_profit, total_loss, total_profit - total_loss,
      (calculate_max_drawdown returns).untop' 0,
      calculate_sharpe_ratio returns (1/20),
      mean (all.map (fun tr => tr.duration_minutes)),
      listMax returns, listMin returns,
      if 0 < total_loss then .finite (total_profit / total_loss) else .inf⟩

/-- C3 counterexample: at full entry confidence the manual-exit branch is
unreachable — the set of uniform draws in [0,1) that resolve the trade to
MANUAL_EXIT is empty — although the claim assigns it the positive
probability 0.4 · (1 − 0.7 · 1) = 0.12. -/
theorem manual_exit_unreachable_at_full_confidence :
    {rand : ℚ | 0 ≤ rand ∧ rand < 1 ∧
      (simulate_trade_outcome 100 70 120 1 rand 1 1 1 30 30 30).result
        = .MANUAL_EXIT} = ∅ ∧
    (2/5 : ℚ) * (1 - (7/10) * 1) ≠ 0 := by
  constructor
  · ext rand
    simp only [Set.mem_setOf_eq, Set.mem_empty_iff_false, iff_false]
    rintro ⟨h0, h1, h2⟩
    unfold simulate_trade_outcome at h2
    split_ifs at h2 with hA hB
    exact hB (by linarith)
  · norm_num

/-- C3 (amended): classify the outcome by the uniform draw. The target is
hit exactly on `rand < 0.7·confidence` (so the target probability is
0.7·confidence, at most 0.7 for confidence ≤ 1); the stop loss fires
exactly on the next slice `0.7·c ≤ rand < 0.7·c + 0.6` — an absolute
0.6-wide band, not 60% of the remaining probability mass; the manual exit
gets only the leftover `0.7·c + 0.6 ≤ rand`, which inside [0,1) has mass
max(0, 0.4 − 0.7·c) and is empty once confidence ≥ 4/7. -/
theorem outcome_branch_characterization
    (entry target stop c rand slipT slipS exitF dT dS dM : ℚ) :
    ((simulate_trade_outcome entry target stop c rand slipT slipS exitF dT dS dM).result
        = .TARGET_HIT ↔ rand < c * (7/10)) ∧
    ((simulate_trade_outcome entry target stop c rand slipT slipS exitF dT dS dM).result
        = .STOP_LOSS_HIT ↔ c * (7/10) ≤ rand ∧ rand < c * (7/10) + 3/5) ∧
    ((simulate_trade_outcome entry target stop c rand slipT slipS exitF dT dS dM).result
        = .MANUAL_EXIT ↔ c * (7/10) + 3/5 ≤ rand) := by
  unfold simulate_trade_outcome
  split_ifs with hA hB
  · refine ⟨⟨fun _ => hA, fun _ => rfl⟩, ⟨fun h1 => ?_, fun h1 => ?_⟩,
      ⟨fun h1 => ?_, fun h1 => ?_⟩⟩
    · exfalso; simp_all
    · exfalso; linarith [h1.1]
    · exfalso; simp_all
    · exfalso; linarith
  · have hA' := not_lt.mp hA
    refine ⟨⟨fun h1 => ?_, fun h1 => ?_⟩, ⟨fun _ => ⟨hA', hB⟩, fun _ => rfl⟩,
      ⟨fun h1 => ?_, fun h1 => ?_⟩⟩
    · exfalso; simp_all
    · exfalso; linarith
    · exfalso; simp_all
    · exfalso; linarith
  · have hB' := not_lt.mp hB
    refine ⟨⟨fun h1 => ?_, fun h1 => ?_⟩, ⟨fun h1 => ?_, fun h1 => ?_⟩,
      ⟨fun _ => hB', fun _ => rfl⟩⟩
    · exfalso; simp_all
    · exfalso; linarith [not_lt.mp hA]
    · exfalso; simp_all
    · exfalso; linarith [h1.2]

/-- C4: a short (direction DOWN) trade whose draw resolves to TARGET_HIT
records a negative profit_loss_percent between −33.5 and −30 — profit is
always exit − entry with no adjustment for trade direction — and Risk
Analytics therefore counts every such trade as losing. -/
theorem short_target_hit_is_recorded_as_loss
    (strategy : String) (entry c rand slipT slipS exitF dT dS dM : ℚ)
    (hentry : 0 < entry) (hs1 : 19/20 ≤ slipT) (hs2 : slipT ≤ 1)
    (hhit : rand < c * (7/10)) :
    (simulate_trade strategy .DOWN entry c rand slipT slipS exitF dT dS dM).outcome
        = .TARGET_HIT ∧
    (simulate_trade strategy .DOWN entry c rand slipT slipS exitF dT dS dM).profit_loss_percent
        < 0 ∧
    -(67/2)
        ≤ (simulate_trade strategy .DOWN entry c rand slipT slipS exitF dT dS dM).profit_loss_percent ∧
    (simulate_trade strategy .DOWN entry c rand slipT slipS exitF dT dS dM).profit_loss_percent
        ≤ -30 ∧
    (calculate_backtest_results
        [simulate_trade strategy .DOWN entry c rand slipT slipS exitF dT dS dM]
        strategy).losing_trades = 1 ∧
    (calculate_backtest_results
        [simulate_trade strategy .DOWN entry c rand slipT slipS exitF dT dS dM]
        strategy).winning_trades = 0 := by
  have hne : entry ≠ 0 := ne_of_gt hentry
  have hrec : simulate_trade strategy .DOWN entry c rand slipT slipS exitF dT dS dM
      = ⟨strategy, .DOWN, entry, entry * (7/10), entry * (6/5),
          entry * (7/10) * slipT, .TARGET_HIT, entry * (7/10) * slipT - entry,
          (entry * (7/10) * slipT - entry) / entry * 100, c, dT⟩ := by
    unfold simulate_trade simulate_trade_outcome
    simp [hhit]
  have hplp : (entry * (7/10) * slipT - entry) / entry * 100
      = ((7/10) * slipT - 1) * 100 := by
    field_simp
    ring
  have hle : (entry * (7/10) * slipT - entry) / entry * 100 ≤ 0 := by
    rw [hplp]; linarith
  have hnlt : ¬ (0 < (entry * (7/10) * slipT - entry) / entry * 100) :=
    not_lt.mpr hle
  refine ⟨by rw [hrec], ?_, ?_, ?_, ?_, ?_⟩
  · rw [hrec]
    show (entry * (7/10) * slipT - entry) / entry * 100 < 0
    rw [hplp]; linarith
  · rw [hrec]
    show -(67/2) ≤ (entry * (7/10) * slipT - entry) / entry * 100
    rw [hplp]; linarith
  · rw [hrec]
    show (entry * (7/10) * slipT - entry) / entry * 100 ≤ -30
    rw [hplp]; linarith
  · rw [hrec]
    unfold calculate_backtest_results
    simp [hle, hnlt]
  · rw [hrec]
    unfold calculate_backtest_results
    simp [hle, hnlt]

/-- C4 witness: a concrete short trade at entry 100, confidence 1, draw 0
(target hit), no slippage. -/
theorem short_target_hit_is_recorded_as_loss_witness :
    (0:ℚ) < 100 ∧ (19:ℚ)/20 ≤ 1 ∧ (1:ℚ) ≤ 1 ∧ (0:ℚ) < 1 * (7/10) ∧
    ((simulate_trade "AI_ONLY" .DOWN 100 1 0 1 1 1 10 10 10).outcome = .TARGET_HIT ∧
     (simulate_trade "AI_ONLY" .DOWN 100 1 0 1 1 1 10 10 10).profit_loss_percent < 0 ∧
     -(67/2) ≤ (simulate_trade "AI_ONLY" .DOWN 100 1 0 1 1 1 10 10 10).profit_loss_percent ∧
     (simulate_trade "AI_ONLY" .DOWN 100 1 0 1 1 1 10 10 10).profit_loss_percent ≤ -30 ∧
     (calculate_backtest_results [simulate_trade "AI_ONLY" .DOWN 100 1 0 1 1 1 10 10 10]
        "AI_ONLY").losing_trades = 1 ∧
     (calculate_backtest_results [simulate_trade "AI_ONLY" .DOWN 100 1 0 1 1 1 10 10 10]
        "AI_ONLY").winning_trades = 0) :=
  ⟨by norm_num, by norm_num, le_refl 1, by norm_num,
   short_target_hit_is_recorded_as_loss "AI_ONLY" 100 1 0 1 1 1 10 10 10
     (by norm_num) (by norm_num) (le_refl 1) (by norm_num)⟩

/-- C7: summarizing the empty trade list returns the literal all-zero
result with profit_factor the finite 0 (not infinite, not NaN); and a
non-empty trade list in which every profit_loss_percent is positive (at
least one win, no losses) yields profit_factor = inf. -/
theorem backtest_results_empty_and_no_loss (s : String) :
    calculate_backtest_results [] s
      = ⟨s, 0, 0, 0, 0, 0, 0, 0, 0, 0, 0, 0, 0, .finite 0⟩ ∧
    ∀ trades : List Trade, trades ≠ [] →
      (∀ t ∈ trades, 0 < t.profit_loss_percent) →
      (calculate_backtest_results trades s).profit_factor = .inf := by
  refine ⟨rfl, ?_⟩
  intro trades hne hpos
  match trades, hne with
  | t :: ts, _ =>
    have hfilter : ((t.profit_loss_percent ::
        ts.map (fun tr => tr.profit_loss_percent)).filter (fun x => x ≤ 0)) = [] := by
      rw [List.filter_eq_nil_iff]
      intro a ha
      rcases List.mem_cons.mp ha with rfl | ha
      · simpa using not_le.mpr (hpos t (List.mem_cons_self t ts))
      · obtain ⟨tr, htr, rfl⟩ := List.mem_map.mp ha
        simpa using not_le.mpr (hpos tr (List.mem_cons_of_mem t htr))
    unfold calculate_backtest_results
    simp [hfilter]

/-- A sample winning trade used to witness the no-loss branch. -/
def sampleWinTrade : Trade :=
  ⟨"AI_ENHANCED", .UP, 100, 130, 80, 130, .TARGET_HIT, 30, 30, 3/5, 60⟩

/-- C7 witness: the empty summary evaluated for a concrete strategy name,
and the no-loss branch evaluated on one concrete winning trade. -/
theorem backtest_results_empty_and_no_loss_witness :
    calculate_backtest_results [] "Technical Only"
      = ⟨"Technical Only", 0, 0, 0, 0, 0, 0, 0, 0, 0, 0, 0, 0, .finite 0⟩ ∧
    ([sampleWinTrade] ≠ ([] : List Trade)) ∧
    (∀ t ∈ [sampleWinTrade], 0 < t.profit_loss_percent) ∧
    (calculate_backtest_results [sampleWinTrade] "Technical Only").profit_factor = .inf := by
  have hmem : ∀ t ∈ [sampleWinTrade], 0 < t.profit_loss_percent := by
    intro t ht
    rcases List.mem_singleton.mp ht with rfl
    norm_num [sampleWinTrade]
  exact ⟨(backtest_results_empty_and_no_loss "Technical Only").1,
    by simp, hmem,
    (backtest_results_empty_and_no_loss "Technical Only").2 [sampleWinTrade]
      (by simp) hmem⟩

theorem cumsumFrom_length (acc : ℚ) (l : List ℚ) :
    (cumsumFrom acc l).length = l.length := by
  induction l generalizing acc with
  | nil => rfl
  | cons x xs ih => simp [cumsumFrom, ih]

theorem accumMaxFrom_length (m : ℚ) (l : List ℚ) :
    (accumMaxFrom m l).length = l.length := by
  induction l generalizing m with
  | nil => rfl
  | cons x xs ih => simp [accumMaxFrom, ih]

theorem runningMax_length (l : List ℚ) : (runningMax l).length = l.length := by
  cases l with
  | nil => rfl
  | cons x xs => simp [runningMax, accumMaxFrom_length]

theorem drawdownList_length (returns : List ℚ) :
    (drawdownList returns).length = returns.length := by
  simp [drawdownList, List.length_zipWith, runningMax_length, cumsum, cumsumFrom_length]

theorem zip_sub_accumMax_nonpos (m : ℚ) (l : List ℚ) :
    ∀ x ∈ l.zipWith (· - ·) (accumMaxFrom m l), x ≤ 0 := by
  induction l generalizing m with
  | nil => intro x hx; simp at hx
  | cons a t ih =>
    intro x hx
    simp only [accumMaxFrom, List.zipWith_cons_cons, List.mem_cons] at hx
    rcases hx with rfl | hx
    · have := le_max_right m a
      linarith
    · exact ih (max m a) x hx

/-- Every entry of the drawdown array is ≤ 0: the cumulative series never
exceeds its own running maximum. -/
theorem drawdownList_nonpos (returns : List ℚ) :
    ∀ x ∈ drawdownList returns, x ≤ 0 := by
  unfold drawdownList
  cases hc : cumsum returns with
  | nil => intro x hx; simp at hx
  | cons a t =>
    intro x hx
    simp only [runningMax, List.zipWith_cons_cons, List.mem_cons] at hx
    rcases hx with rfl | hx
    · simp
    · exact zip_sub_accumMax_nonpos a t x hx

/-- C8: for a non-empty return sequence, the computed max drawdown is the
minimum over positions of (cumulative sum − running maximum of cumulative
sums); it is 0 whenever the cumulative series never dips below its running
maximum; and on [5, −3, −4, 6] it is −7. -/
theorem max_drawdown_is_min_of_cum_minus_runmax (returns : List ℚ) (h : returns ≠ []) :
    (∃ d : ℚ, calculate_max_drawdown returns = (d : WithTop ℚ) ∧
      d ∈ drawdownList returns ∧ ∀ x ∈ drawdownList returns, d ≤ x) ∧
    ((∀ x ∈ drawdownList returns, 0 ≤ x) →
      calculate_max_drawdown returns = ((0 : ℚ) : WithTop ℚ)) ∧
    calculate_max_drawdown [5, -3, -4, 6] = ((-7 : ℚ) : WithTop ℚ) := by
  have hlen : drawdownList returns ≠ [] := by
    intro hnil
    have hl := drawdownList_length returns
    rw [hnil] at hl
    exact h (List.length_eq_zero.mp hl.symm)
  have hne : (drawdownList returns).minimum ≠ ⊤ :=
    List.minimum_ne_top_of_ne_nil hlen
  obtain ⟨d, hd⟩ := WithTop.ne_top_iff_exists.mp hne
  have hmin := List.minimum_eq_coe_iff.mp hd.symm
  refine ⟨⟨d, hd.symm, hmin.1, hmin.2⟩, ?_, ?_⟩
  · intro hnn
    have h0 : d = 0 :=
      le_antisymm (drawdownList_nonpos returns d hmin.1) (hnn d hmin.1)
    unfold calculate_max_drawdown
    rw [← hd, h0]
  · have hdd : drawdownList [5, -3, -4, 6] = [0, -3, -7, -1] := by
      norm_num [drawdownList, cumsum, cumsumFrom, runningMax, accumMaxFrom, max_def]
    unfold calculate_max_drawdown
    rw [hdd, List.minimum_eq_coe_iff]
    refine ⟨by norm_num, ?_⟩
    intro a ha
    rcases List.mem_cons.mp ha with rfl | ha
    · norm_num
    rcases List.mem_cons.mp ha with rfl | ha
    · norm_num
    rcases List.mem_cons.mp ha with rfl | ha
    · norm_num
    rcases List.mem_cons.mp ha with rfl | ha
    · norm_num
    · simp at ha

/-- C8 witness: the property applied to the spec's own worked example
[5, −3, −4, 6], whose max drawdown is −7. -/
theorem max_drawdown_is_min_of_cum_minus_runmax_witness :
    ([5, -3, -4, 6] : List ℚ) ≠ [] ∧
    calculate_max_drawdown [5, -3, -4, 6] = ((-7 : ℚ) : WithTop ℚ) :=
  ⟨by simp,
   (max_drawdown_is_min_of_cum_minus_runmax [5, -3, -4, 6] (by simp)).2.2⟩

theorem popVar_singleton (x : ℚ) : popVar [x] = 0 := by
  norm_num [popVar, mean]

theorem popVar_nonneg (l : List ℚ) : 0 ≤ popVar l := by
  unfold popVar mean
  apply div_nonneg
  · apply List.sum_nonneg
    intro x hx
    obtain ⟨y, hy, rfl⟩ := List.mem_map.mp hx
    positivity
  · positivity

theorem sum_map_sub (l : List ℚ) (c : ℚ) :
    (l.map (fun x => x - c)).sum = l.sum - l.length * c := by
  induction l with
  | nil => simp
  | cons a t ih =>
    simp [ih]
    ring

theorem mean_map_sub (l : List ℚ) (c : ℚ) (h : l ≠ []) :
    mean (l.map (fun x => x - c)) = mean l - c := by
  have hn : (l.length : ℚ) ≠ 0 :=
    Nat.cast_ne_zero.mpr (fun h0 => h (List.length_eq_zero.mp h0))
  unfold mean
  rw [List.length_map, sum_map_sub]
  field_simp

/-- Population variance is invariant under subtracting a constant from
every element (how `np.std(returns) == 0` relates to the std of the
excess-return series). -/
theorem popVar_map_sub (l : List ℚ) (c : ℚ) (h : l ≠ []) :
    popVar (l.map (fun x => x - c)) = popVar l := by
  unfold popVar
  rw [mean_map_sub l c h, List.map_map]
  have hfun : ((fun x => (x - (mean l - c)) ^ 2) ∘ (fun x => x - c))
      = fun x => (x - mean l) ^ 2 := by
    funext y
    simp only [Function.comp]
    ring
  rw [hfun]

/-- C9: the Sharpe computation returns 0 whenever there are fewer than 2
trades (a singleton series has zero population variance, and the empty
series is guarded explicitly) or the returns have zero variance; otherwise
the divisor √(variance of the excess series) is non-zero — no division by
zero — and the result is mean(excess)/std(excess)·√252 with the daily
risk-free rate rfr/252 subtracted elementwise. -/
theorem sharpe_ratio_guard_and_formula (returns : List ℚ) (rfr : ℚ) :
    ((returns.length < 2 ∨ popVar returns = 0) →
      calculate_sharpe_ratio returns rfr = 0) ∧
    (2 ≤ returns.length → popVar returns ≠ 0 →
      Real.sqrt ((popVar (returns.map (fun x => x - rfr / 252)) : ℚ) : ℝ) ≠ 0 ∧
      calculate_sharpe_ratio returns rfr
        = ((mean (returns.map (fun x => x - rfr / 252)) : ℚ) : ℝ)
          / Real.sqrt ((popVar (returns.map (fun x => x - rfr / 252)) : ℚ) : ℝ)
          * Real.sqrt 252) := by
  constructor
  · intro hcond
    unfold calculate_sharpe_ratio
    rcases hcond with hlen | hvar
    · match returns, hlen with
      | [], _ => simp
      | [x], _ => rw [if_pos (Or.inr (popVar_singleton x))]
      | x :: y :: t, hlen =>
        simp only [List.length_cons] at hlen
        omega
    · rw [if_pos (Or.inr hvar)]
  · intro hlen hvar
    have hne : returns ≠ [] := by
      intro h0
      rw [h0] at hlen
      simp at hlen
    have hcond : ¬ (returns.length = 0 ∨ popVar returns = 0) := by
      rintro (h0 | h0)
      · omega
      · exact hvar h0
    refine ⟨?_, ?_⟩
    · rw [popVar_map_sub returns (rfr / 252) hne]
      have hpos : 0 < popVar returns :=
        lt_of_le_of_ne (popVar_nonneg returns) (Ne.symm hvar)
      have hcast : (0 : ℝ) < ((popVar returns : ℚ) : ℝ) := by exact_mod_cast hpos
      exact ne_of_gt (Real.sqrt_pos.mpr hcast)
    · unfold calculate_sharpe_ratio
      rw [if_neg hcond]

/-- C9 witness: a one-element series gives Sharpe 0 through the guard, and
on the two-element series [0, 1] the variance is non-zero, so the divisor
is non-zero. -/
theorem sharpe_ratio_guard_and_formula_witness :
    (([3] : List ℚ).length < 2 ∨ popVar [3] = 0) ∧
    calculate_sharpe_ratio [3] (1/20) = 0 ∧
    2 ≤ ([0, 1] : List ℚ).length ∧ popVar ([0, 1] : List ℚ) ≠ 0 ∧
    Real.sqrt ((popVar (([0, 1] : List ℚ).map (fun x => x - (1/20) / 252)) : ℚ) : ℝ)
      ≠ 0 := by
  have hvar : popVar ([0, 1] : List ℚ) ≠ 0 := by
    norm_num [popVar, mean]
  exact ⟨Or.inl (by norm_num),
    (sharpe_ratio_guard_and_formula [3] (1/20)).1 (Or.inl (by norm_num)),
    by norm_num, hvar,
    ((sharpe_ratio_guard_and_formula [0, 1] (1/20)).2 (by norm_num) hvar).1⟩

/-! ## Feature pipeline and prediction ensemble (`price_prediction_model.py`) -/

/-- ASCII lowercasing of one character (`str.lower()` on the ASCII column
names used by the pipeline). -/
def lowerChar (c : Char) : Char :=
  if 'A' ≤ c ∧ c ≤ 'Z' then Char.ofNat (c.toNat + 32) else c

/-- Embeds `col.lower()` as a character list. -/
def lowerStr (s : String) : List Char :=
  s.data.map lowerChar

/-- Is `pat` a prefix of the second list? -/
def isPrefixList : List Char → List Char → Bool
  | [], _ => true
  | _ :: _, [] => false
  | p :: ps, c :: cs => p = c && isPrefixList ps cs

/-- Python's substring test `pat in hay`. -/
def containsSub : List Char → List Char → Bool
  | [], pat => isPrefixList pat []
  | c :: t, pat => isPrefixList pat (c :: t) || containsSub t pat

/-- Source `price_prediction_model.py:148-151`: the base feature columns. -/
def base_feature_cols : List String :=
  ["price", "hour", "minute", "day_of_week", "is_opening_hour", "is_closing_hour"]

/-- Source `price_prediction_model.py:154-155`: the substrings marking a frame
column as a technical-indicator feature. -/
def technical_markers : List String :=
  ["ema", "rsi", "momentum", "volatility", "bb_", "price_change", "price_ma"]

/-- Embeds `any(indicator in col.lower() for indicator in [...])`. -/
def isTechnicalCol (c : String) : Bool :=
  technical_markers.any (fun m => containsSub (lowerStr c) m.data)

/-- The column-selection logic of `prepare_features`
(`price_prediction_model.py:143-178`) as a function of the input frame's
column list (in dataframe order): base columns, then every frame column
matching a technical marker, then the trend / volatility-regime dummy
columns (which the source also adds to the frame before filtering);
finally only columns present in the (augmented) frame are kept. The
result is `available_cols`, which the source also assigns to
`self.feature_columns` — on every call, including calls from `predict`. -/
def prepare_features_cols (dfCols : List String) : List String :=
  let feature_cols := base_feature_cols ++ dfCols.filter (fun c => isTechnicalCol c)
  let feature_cols := feature_cols ++
    (if dfCols.contains "trend" then ["trend_bullish", "trend_bearish"] else [])
  let feature_cols := feature_cols ++
    (if dfCols.contains "volatilityRegime" then ["vol_high", "vol_medium"] else [])
  let dfColsAug := dfCols ++
    (if dfCols.contains "trend" then ["trend_bullish", "trend_bearish"] else []) ++
    (if dfCols.contains "volatilityRegime" then ["vol_high", "vol_medium"] else [])
  feature_cols.filter (fun c => dfColsAug.contains c)

/-- Column names of the engineered training frame fed to `train_models`
in the repository's own `__main__` flow (identifier and time features plus
the flattened indicator columns; a representative subset that pins down
the fitted `feature_columns` list). -/
def trainingFrameCols : List String :=
  ["timestamp", "indexName", "price", "hour", "minute", "day_of_week",
   "is_opening_hour", "is_closing_hour", "ema", "rsi", "momentum", "volatility"]

/-- Keys of the `market_data` dict the backtester passes to `predict`
(`backtesting_system.py:158-177`): note there is no `minute` key. -/
def backtestMarketDataCols : List String :=
  ["price", "hour", "day_of_week", "is_opening_hour", "is_closing_hour",
   "ema", "rsi", "momentum", "volatility"]

/-- C1: `predict` does not replay the column list recorded at fit time —
it recomputes the selection from the inference frame's own columns.
Fitting on the engineered training frame records `minute` among the
feature columns, but a predict call on the backtester's market_data
(which lacks a `minute` key) silently drops that column instead of
filling it with 0: the two selections differ, and the downstream
`scaler.transform` then fails on the width mismatch. -/
theorem predict_time_columns_recomputed :
    "minute" ∈ prepare_features_cols trainingFrameCols ∧
    "minute" ∉ prepare_features_cols backtestMarketDataCols ∧
    prepare_features_cols backtestMarketDataCols
      ≠ prepare_features_cols trainingFrameCols ∧
    (prepare_features_cols backtestMarketDataCols).length
      ≠ (prepare_features_cols trainingFrameCols).length := by
  decide

/-- An sklearn estimator as used by `predict`: every estimator exposes
`.predict`; only classifiers expose `.predict_proba`. The `Option` on
`predict_probaF` records whether the attribute exists — calling it when
absent is an AttributeError. -/
structure Estimator where
  predictF : List ℚ → ℚ
  predict_probaF : Option (List ℚ → List ℚ)

/-- A fitted regressor: `predict` available, `predict_proba` absent. Both
direction-model candidates — `RandomForestRegressor` and
`GradientBoostingRegressor` (`price_prediction_model.py:214-217`) — are
regressors, so whatever `train_direction_model` selects has this shape. -/
def fitted_regressor (f : List ℚ → ℚ) : Estimator :=
  ⟨f, none⟩

/-- The success-probability model is a `RandomForestClassifier`
(`price_prediction_model.py:257`); `proba1` is `predict_proba(X)[0, 1]`. -/
structure SuccessModel where
  proba1 : List ℚ → ℚ

/-- The fitted `StandardScaler` stored under `self.scalers['main']`. -/
structure Scaler where
  transform : List ℚ → List ℚ

/-- The model state of `TradingAIPredictionModel`
(`price_prediction_model.py:20-29`): the optional fitted scaler, the three
optional sub-models, and the direction label decoder
(`self.label_encoders['direction'].inverse_transform`). -/
structure Ensemble where
  scaler : Option Scaler
  price_direction : Option Estimator
  success_probability : Option SuccessModel
  price_target : Option Estimator
  direction_decode : ℚ → String

/-- Source `price_prediction_model.py:300-328`: `predict`, applied to the
prepared feature row `x` (the `prepare_features` + `fillna(0)` stage is
total and never raises). `self.scalers['main']` raises KeyError when the
scaler was never fit. A present direction model is consulted for
`.predict` and then `.predict_proba`; the latter raises AttributeError
when the model does not provide it. The success-probability and
price-target models contribute their keys only when present. -/
def predict (e : Ensemble) (x : List ℚ) : Except String Prediction :=
  match e.scaler with
  | none => .error "KeyError main"
  | some sc =>
    let xs := sc.transform x
    match e.price_direction with
    | some m =>
      match m.predict_probaF with
      | none => .error "AttributeError predict_proba"
      | some proba =>
        .ok ⟨some (e.direction_decode (m.predictF xs)),
          some (listMax (proba xs)),
          e.success_probability.map (fun sm => sm.proba1 xs),
          e.price_target.map (fun tm => tm.predictF xs)⟩
    | none =>
      .ok ⟨none, none,
        e.success_probability.map (fun sm => sm.proba1 xs),
        e.price_target.map (fun tm => tm.predictF xs)⟩

/-- C10: the never-fit scaler is indeed reported as the fatal
configuration error, and untrained success/target models merely leave
their `Prediction` fields absent — but the claim's "predict does not
crash for any subset of untrained models" fails: whenever the direction
model is present in the only form the repository's training can produce
(a regressor, which has no `predict_proba`), `predict` raises
AttributeError instead of returning a Prediction. -/
theorem predict_crashes_with_trained_direction_model
    (sc : Scaler) (f : List ℚ → ℚ) (succ : Option SuccessModel)
    (targ : Option Estimator) (dec : ℚ → String) (x : List ℚ) :
    predict ⟨none, some (fitted_regressor f), succ, targ, dec⟩ x
      = .error "KeyError main" ∧
    predict ⟨some sc, some (fitted_regressor f), succ, targ, dec⟩ x
      = .error "AttributeError predict_proba" ∧
    predict ⟨some sc, none, succ, targ, dec⟩ x
      = .ok ⟨none, none, succ.map (fun sm => sm.proba1 (sc.transform x)),
          targ.map (fun tm => tm.predictF (sc.transform x))⟩ :=
  ⟨rfl, rfl, rfl⟩

end NiftyBot
